import Mathlib

/-!
Verification of the real-time container session manager of the UADIA panel
(`backend/consumers.py`, `backend/models.py`) against its specification.

The two WebSocket consumer classes are embedded shallowly:
* pure helpers (`parse_log_level`, the CPU/memory derivations) become pure
  Lean functions;
* the mutable per-connection attributes (`self.container`, `self.log_task`)
  become an explicit `ConsoleState` record threaded through the operations;
* calls into collaborators (Docker resolution, `exec_run`, the database)
  become explicit `Except`/`Option`-valued inputs, since Python surfaces
  their failures as exceptions that the consumer code catches;
* Python numerics are modelled with `Int`/`Rat` (Python integers are
  unbounded; true division is exact here, which the claims at issue do not
  distinguish).
-/

namespace UADIA

/-! ## Log classifier (`ServerConsoleConsumer.parse_log_level`) -/

/-- `startsWithChars p l` holds when `p` is an initial segment of `l`. -/
def startsWithChars : List Char → List Char → Bool
  | [], _ => true
  | _ :: _, [] => false
  | p :: ps, c :: cs => p = c && startsWithChars ps cs

/-- `hasSubChars pat l`: `pat` occurs contiguously somewhere in `l`. -/
def hasSubChars (pat : List Char) : List Char → Bool
  | [] => pat.isEmpty
  | c :: cs => startsWithChars pat (c :: cs) || hasSubChars pat cs

/-- Python substring test `pat in s`, used by `parse_log_level` via the
`in` operator on `str`. -/
def containsStr (s pat : String) : Bool :=
  hasSubChars pat.toList s.toList

/-- `ServerConsoleConsumer.parse_log_level` (consumers.py lines 255-268):
upper-case the line, then match markers in fixed priority order. -/
def parse_log_level (log_line : String) : String :=
  let log_upper := log_line.toUpper
  if containsStr log_upper "ERROR" || containsStr log_upper "SEVERE" then
    "ERROR"
  else if containsStr log_upper "WARN" || containsStr log_upper "WARNING" then
    "WARN"
  else if containsStr log_upper "DEBUG" then
    "DEBUG"
  else if containsStr log_upper "SUCCESS" || containsStr log_upper "DONE" then
    "SUCCESS"
  else
    "INFO"

/-- The classifier contract as the spec words it: a priority-ordered table of
marker sets (ERROR/SEVERE > WARN/WARNING > DEBUG > SUCCESS/DONE), first
matching row wins, default INFO. -/
def severity_table : List (List String × String) :=
  [(["ERROR", "SEVERE"], "ERROR"),
   (["WARN", "WARNING"], "WARN"),
   (["DEBUG"], "DEBUG"),
   (["SUCCESS", "DONE"], "SUCCESS")]

/-- Spec-side classifier: case-insensitive substring match against
`severity_table` in fixed priority order, defaulting to INFO. -/
def classify_spec (line : String) : String :=
  let u := line.toUpper
  match severity_table.find? (fun entry => entry.1.any (fun m => containsStr u m)) with
  | some entry => entry.2
  | none => "INFO"

/-! ## History Store (`backend/models.py` `ServerLog`, and the consumer's
`save_log` / `get_recent_logs` / `send_log_history`)

`ServerLog` declares exactly the fields `server` (foreign key, column
`server_id`), `timestamp` (auto_now_add) and `log_entry`.  A stored row is
modelled by `ServerLogRow`; timestamps are instants modelled as naturals. -/

/-- One persisted `ServerLog` row: the model's concrete columns. -/
structure ServerLogRow where
  server_id : Nat
  timestamp : Nat
  log_entry : String
deriving DecidableEq

/-- A Python value passed as a keyword argument or read off a row attribute. -/
inductive PyVal where
  | n (v : Nat)
  | s (v : String)
deriving DecidableEq

/-- String rendering of a `PyVal` (its appearance in an outbound JSON text). -/
def PyVal.render : PyVal → String
  | .n v => toString v
  | .s v => v

/-- Keyword arguments `ServerLog.objects.create` accepts: the declared fields,
the foreign key's `_id` column form, and the implicit primary key. -/
def serverLogKwargNames : List String :=
  ["id", "server", "server_id", "timestamp", "log_entry"]

/-- Look up a keyword argument by name. -/
def lookupPy (kwargs : List (String × PyVal)) (name : String) : Option PyVal :=
  (kwargs.find? (fun kv => kv.1 = name)).map (fun kv => kv.2)

/-- Coerce a keyword value to a natural (foreign-key id). -/
def PyVal.asNat : PyVal → Nat
  | .n v => v
  | .s _ => 0

/-- Coerce a keyword value to a string (text field). -/
def PyVal.asStr : PyVal → String
  | .n v => toString v
  | .s v => v

/-- `ServerLog.objects.create(**kwargs)`: Django raises `TypeError` when any
keyword is not a declared field; otherwise it appends a row whose
`timestamp` is set by `auto_now_add` to the current instant `now`. -/
def serverLog_objects_create (store : List ServerLogRow)
    (kwargs : List (String × PyVal)) (now : Nat) :
    Except String (List ServerLogRow) :=
  if kwargs.all (fun kv => serverLogKwargNames.contains kv.1) then
    Except.ok (store ++
      [{ server_id := ((lookupPy kwargs "server_id").getD (PyVal.n 0)).asNat,
         timestamp := now,
         log_entry := ((lookupPy kwargs "log_entry").getD (PyVal.s "")).asStr }])
  else
    Except.error "TypeError: invalid keyword argument for this function"

/-- `ServerConsoleConsumer.save_log` (consumers.py lines 214-223): calls
`create` with keywords `server_id`, `level`, `message`; any exception is
caught, logged, and swallowed. -/
def save_log (store : List ServerLogRow) (server_id : Nat) (now : Nat)
    (level message : String) : List ServerLogRow :=
  match serverLog_objects_create store
      [("server_id", PyVal.n server_id),
       ("level", PyVal.s level),
       ("message", PyVal.s message)] now with
  | Except.ok store2 => store2
  | Except.error _ => store

/-- Python attribute access on a `ServerLog` row: only the declared columns
exist; any other name raises `AttributeError`. -/
def serverLogGetattr (row : ServerLogRow) (name : String) : Except String PyVal :=
  if name = "server_id" then Except.ok (PyVal.n row.server_id)
  else if name = "timestamp" then Except.ok (PyVal.n row.timestamp)
  else if name = "log_entry" then Except.ok (PyVal.s row.log_entry)
  else Except.error ("AttributeError: " ++ name)

/-- One dict produced by `get_recent_logs`'s list comprehension. -/
structure HistEntry where
  message : PyVal
  level : PyVal
  timestamp : PyVal
deriving DecidableEq

/-- Insert a row into a list kept in descending timestamp order. -/
def insertDescByTimestamp (r : ServerLogRow) :
    List ServerLogRow → List ServerLogRow
  | [] => [r]
  | x :: xs =>
    if r.timestamp ≤ x.timestamp then x :: insertDescByTimestamp r xs
    else r :: x :: xs

/-- `order_by(-timestamp)`: most-recent-first ordering of the matched rows. -/
def orderByTimestampDesc : List ServerLogRow → List ServerLogRow
  | [] => []
  | x :: xs => insertDescByTimestamp x (orderByTimestampDesc xs)

/-- `ServerConsoleConsumer.get_recent_logs` (consumers.py lines 225-238):
filter by server, order by `-timestamp`, take `limit`, then build dicts from
the attributes `message`, `level`, `timestamp` of each row.  The attribute
reads raise (the first two name no column of `ServerLog`), which aborts the
whole database call. -/
def get_recent_logs (store : List ServerLogRow) (server_id : Nat)
    (limit : Nat) : Except String (List HistEntry) :=
  let logs := (orderByTimestampDesc
      (store.filter (fun r => r.server_id = server_id))).take limit
  logs.mapM (fun log => do
    let m ← serverLogGetattr log "message"
    let l ← serverLogGetattr log "level"
    let t ← serverLogGetattr log "timestamp"
    Except.ok { message := m, level := l, timestamp := t })

/-- One server→client protocol message sent on a single connection. -/
inductive OutMsg where
  | log (message : String) (log_level : String) (timestamp : String)
  | error (message : String)
  | info (message : String)
deriving DecidableEq

/-- `ServerConsoleConsumer.send_log_history` (consumers.py lines 187-201):
fetch the 100 most recent persisted entries and send each as a
`type: log` message; any exception is caught and logged, sending nothing. -/
def send_log_history (store : List ServerLogRow) (server_id : Nat) :
    List OutMsg :=
  match get_recent_logs store server_id 100 with
  | Except.ok logs =>
    logs.map (fun log =>
      OutMsg.log log.message.render log.level.render log.timestamp.render)
  | Except.error _ => []

/-! ## Console session state (`ServerConsoleConsumer`)

The consumer instance's mutable attributes set in `connect` are the
per-connection state.  Container handles are runtime handle identifiers
(naturals); the background task created by `asyncio.create_task` is recorded
as the handle it streams from. -/

/-- The per-connection attributes of one `ServerConsoleConsumer` instance:
`self.server_id`, `self.container` (the cached handle), `self.log_task`. -/
structure ConsoleState where
  server_id : Nat
  container : Option Nat
  log_task : Option Nat
deriving DecidableEq

/-- The Docker collaborator as seen by one connection: the result of
`docker.from_env` + `containers.get` (resolution), and of
`container.exec_run` per command.  A raised exception is `Except.error`. -/
structure ExecEnv where
  resolve : Except String Nat
  exec_run : Nat → String → Except String Unit

/-- `ServerConsoleConsumer.get_container` (consumers.py lines 240-253):
return the cached handle if present; otherwise resolve
`minecraft_server_<id>`, caching a success; on exception return `None`. -/
def get_container (st : ConsoleState) (resolve : Except String Nat) :
    Option Nat × ConsoleState :=
  match st.container with
  | some c => (some c, st)
  | none =>
    match resolve with
    | Except.ok c => (some c, { st with container := some c })
    | Except.error _ => (none, st)

/-- One `console_message` event broadcast through the channel layer to the
room group `console_<server_id>`. -/
structure GroupEvent where
  message : String
  log_level : String
  timestamp : Nat
deriving DecidableEq

/-- A `database_sync_to_async` collaborator call made while handling a
connection or a message (used to count authorization consultations). -/
inductive DbCall where
  | get_server
  | check_access
  | save_log
  | get_recent_logs
deriving DecidableEq

/-- Result of handling one inbound event on a console connection: the new
per-connection state, the new History Store contents, the messages sent
directly to this client, the events broadcast to the room group, and the
database calls made. -/
structure ReceiveOut where
  state : ConsoleState
  store : List ServerLogRow
  sent : List OutMsg
  group : List GroupEvent
  db_calls : List DbCall
deriving DecidableEq

/-- `ServerConsoleConsumer.execute_command` (consumers.py lines 80-117):
resolve the container (cached); if absent send an error; otherwise run the
command, persist a COMMAND log via `save_log`, and broadcast a COMMAND
`console_message` to the whole group.  A raised exception from `exec_run`
is caught and reported as an error message to this client only. -/
def execute_command (st : ConsoleState) (env : ExecEnv)
    (store : List ServerLogRow) (now : Nat) (command : String) : ReceiveOut :=
  match get_container st env.resolve with
  | (none, st1) =>
    { state := st1, store := store,
      sent := [OutMsg.error "Server container not found"],
      group := [], db_calls := [] }
  | (some c, st1) =>
    match env.exec_run c command with
    | Except.error e =>
      { state := st1, store := store,
        sent := [OutMsg.error ("Failed to execute command: " ++ e)],
        group := [], db_calls := [] }
    | Except.ok _ =>
      { state := st1,
        store := save_log store st1.server_id now "COMMAND" ("> " ++ command),
        sent := [],
        group := [{ message := "> " ++ command, log_level := "COMMAND",
                    timestamp := now }],
        db_calls := [DbCall.save_log] }

/-- `ServerConsoleConsumer.console_message` (consumers.py lines 178-185):
what each group member's connection sends for one broadcast event. -/
def console_message (ev : GroupEvent) : OutMsg :=
  OutMsg.log ev.message ev.log_level (toString ev.timestamp)

/-- Fan-out: the message sequence every member of the room group receives
for a sequence of broadcast events, in broadcast order. -/
def group_deliver (evs : List GroupEvent) : List OutMsg :=
  evs.map console_message

/-- A sequence of commands submitted one after the other through the same
connection; collects the group events broadcast, in submission order. -/
def submit_commands (st : ConsoleState) (env : ExecEnv)
    (store : List ServerLogRow) (now : Nat) :
    List String → ConsoleState × List ServerLogRow × List GroupEvent
  | [] => (st, store, [])
  | c :: cs =>
    let r := execute_command st env store now c
    let rest := submit_commands r.state env r.store now cs
    (rest.1, rest.2.1, r.group ++ rest.2.2)

/-- One parsed client→server message (`receive`'s dispatch on `type`).
`invalid` stands for a payload whose handling raised (e.g. bad JSON). -/
inductive ClientMsg where
  | command (command : String)
  | get_history
  | invalid (err : String)
  | other
deriving DecidableEq

/-- `ServerConsoleConsumer.receive` (consumers.py lines 61-78): dispatch on
the message type; exceptions are caught and sent back as an error message. -/
def receive (st : ConsoleState) (env : ExecEnv) (store : List ServerLogRow)
    (now : Nat) (msg : ClientMsg) : ReceiveOut :=
  match msg with
  | ClientMsg.command c => execute_command st env store now c
  | ClientMsg.get_history =>
    { state := st, store := store,
      sent := send_log_history store st.server_id,
      group := [], db_calls := [DbCall.get_recent_logs] }
  | ClientMsg.invalid e =>
    { state := st, store := store, sent := [OutMsg.error e],
      group := [], db_calls := [] }
  | ClientMsg.other =>
    { state := st, store := store, sent := [], group := [], db_calls := [] }

/-- `ServerConsoleConsumer.start_log_stream` (consumers.py lines 119-134):
resolve the container; if absent send `Server is not running` and create no
task; otherwise create the background streaming task for it. -/
def start_log_stream (st : ConsoleState) (resolve : Except String Nat) :
    ConsoleState × List OutMsg :=
  match get_container st resolve with
  | (none, st1) => (st1, [OutMsg.info "Server is not running"])
  | (some c, st1) => ({ st1 with log_task := some c }, [])

/-- Outcome of one `connect` call: whether the socket was accepted, what was
sent to this client during connect, and the database calls made. -/
structure ConnResult where
  accepted : Bool
  sent : List OutMsg
  db_calls : List DbCall
deriving DecidableEq

/-- The attribute values `connect` initialises before any check:
`self.container = None`, `self.log_task = None`. -/
def initialState (server_id : Nat) : ConsoleState :=
  { server_id := server_id, container := none, log_task := none }

/-- `ServerConsoleConsumer.connect` (consumers.py lines 15-48): close unless
the user is authenticated, the server row exists, and `check_access` grants
access; otherwise join the group, accept, and start the log stream. -/
def connect (server_id : Nat) (auth server_exists has_access : Bool)
    (resolve : Except String Nat) : ConsoleState × ConnResult :=
  let st := initialState server_id
  if auth = false then
    (st, { accepted := false, sent := [], db_calls := [] })
  else if server_exists = false then
    (st, { accepted := false, sent := [], db_calls := [DbCall.get_server] })
  else if has_access = false then
    (st, { accepted := false, sent := [],
           db_calls := [DbCall.get_server, DbCall.check_access] })
  else
    let r := start_log_stream st resolve
    (r.1, { accepted := true, sent := r.2,
            db_calls := [DbCall.get_server, DbCall.check_access] })

/-- `n` clients attaching to the same server: each connection runs `connect`
on its own fresh consumer instance (no state is shared between instances). -/
def attach_many (n : Nat) (server_id : Nat) (auth server_exists has_access : Bool)
    (resolve : Except String Nat) : List (ConsoleState × ConnResult) :=
  List.replicate n (connect server_id auth server_exists has_access resolve)

/-- Number of background log-reader tasks alive across a set of connections:
one per connection whose `log_task` attribute is set. -/
def reader_tasks (conns : List (ConsoleState × ConnResult)) : Nat :=
  (conns.filter (fun c => c.1.log_task.isSome)).length

/-- Outcome of one `ServerStatsConsumer.connect` call. -/
structure StatsConn where
  accepted : Bool
  stats_task : Option Nat
  db_calls : List DbCall
deriving DecidableEq

/-- `ServerStatsConsumer.connect` (consumers.py lines 279-298): close unless
the user is authenticated; otherwise join the group, accept, and start the
periodic stats task.  No server lookup and no access check are performed. -/
def stats_connect (auth : Bool) : StatsConn :=
  if auth = false then
    { accepted := false, stats_task := none, db_calls := [] }
  else
    { accepted := true, stats_task := some 1, db_calls := [] }

/-! ## Stats sampler (`ServerStatsConsumer.get_server_stats`) -/

/-- The counters returned by `container.stats(stream=False)` that
`get_server_stats` reads. -/
structure RawStats where
  cpu_total : Int
  precpu_total : Int
  system_cpu : Int
  presystem_cpu : Int
  memory_usage : Int
  memory_limit : Int
deriving DecidableEq

/-- The `cpu_percent` expression of consumers.py lines 344-348: the quotient
of the deltas times 100 when the system delta is positive, else 0. -/
def cpu_percent_of (s : RawStats) : ℚ :=
  let cpu_delta : Int := s.cpu_total - s.precpu_total
  let system_delta : Int := s.system_cpu - s.presystem_cpu
  if system_delta > 0 then ((cpu_delta : ℚ) / (system_delta : ℚ)) * 100 else 0

/-- Python's `round(x, 2)`, modelled over `ℚ` with round-half-up (Python
rounds binary floats half-to-even; the claims at issue never depend on the
tie-breaking rule or on float rounding error). -/
def round2 (q : ℚ) : ℚ :=
  (⌊q * 100 + 1 / 2⌋ : ℚ) / 100

/-- One `stats` payload sent to the client. -/
structure StatsSample where
  cpu_percent : ℚ
  memory_mb : ℚ
  memory_limit_mb : ℚ
  memory_percent : ℚ
  online : Bool
deriving DecidableEq

/-- The degraded sample of the `except` branch: all-zero fields, offline. -/
def offline_stats : StatsSample :=
  { cpu_percent := 0, memory_mb := 0, memory_limit_mb := 0,
    memory_percent := 0, online := false }

/-- The `try` branch of `get_server_stats` (consumers.py lines 343-361) once
the counters were fetched: derive the percentages; dividing by a zero
`memory_limit` raises `ZeroDivisionError`. -/
def compute_stats (s : RawStats) : Except String StatsSample :=
  let cpu_percent := cpu_percent_of s
  if s.memory_limit = 0 then Except.error "ZeroDivisionError"
  else
    Except.ok
      { cpu_percent := round2 cpu_percent,
        memory_mb := round2 ((s.memory_usage : ℚ) / (1024 * 1024)),
        memory_limit_mb := round2 ((s.memory_limit : ℚ) / (1024 * 1024)),
        memory_percent := round2 (((s.memory_usage : ℚ) / (s.memory_limit : ℚ)) * 100),
        online := true }

/-- `ServerStatsConsumer.get_server_stats` (consumers.py lines 327-371):
resolution/fetch is the `Except`-valued input; any exception anywhere in the
`try` block yields the all-zero offline sample instead of propagating. -/
def get_server_stats (fetch : Except String RawStats) : StatsSample :=
  match fetch with
  | Except.error _ => offline_stats
  | Except.ok s =>
    match compute_stats s with
    | Except.error _ => offline_stats
    | Except.ok sample => sample

/-! ## Theorems -/

/-- Claim C2: the log classifier is a pure total function agreeing with the
spec's fixed-priority table: ERROR/SEVERE first, then WARN/WARNING, then
DEBUG, then SUCCESS/DONE, else INFO, matched case-insensitively by substring
on the upper-cased line; the priority decides when several markers
co-occur. -/
theorem parse_log_level_matches_spec :
    ∀ line : String, parse_log_level line = classify_spec line := by
  intro line
  unfold parse_log_level classify_spec severity_table
  cases h1 : containsStr line.toUpper "ERROR" <;>
    cases h2 : containsStr line.toUpper "SEVERE" <;>
    cases h3 : containsStr line.toUpper "WARN" <;>
    cases h4 : containsStr line.toUpper "WARNING" <;>
    cases h5 : containsStr line.toUpper "DEBUG" <;>
    cases h6 : containsStr line.toUpper "SUCCESS" <;>
    cases h7 : containsStr line.toUpper "DONE" <;>
    simp [List.find?, h1, h2, h3, h4, h5, h6, h7]

/-- Claim C3: `save_log` always leaves the History Store unchanged and
returns normally — the `create` call passes the keywords `level` and
`message`, which are not fields of `ServerLog`, so it raises and the
exception is swallowed; likewise the attributes `message` and `level` that
`get_recent_logs` reads do not exist on a `ServerLog` row. -/
theorem save_log_never_persists :
    ∀ (store : List ServerLogRow) (sid now : Nat) (level message : String)
      (r : ServerLogRow),
      save_log store sid now level message = store ∧
      serverLogGetattr r "message" = Except.error "AttributeError: message" ∧
      serverLogGetattr r "level" = Except.error "AttributeError: level" := by
  intro store sid now level message r
  exact ⟨rfl, rfl, rfl⟩

/-- Claim C9: the derived CPU percentage is 0 exactly when the system
counter delta is non-positive (no division is attempted), and equals the
delta quotient scaled by 100 otherwise. -/
theorem cpu_percent_clamped_at_nonpositive_delta :
    ∀ s : RawStats,
      cpu_percent_of s =
        if s.system_cpu - s.presystem_cpu ≤ 0 then 0
        else ((s.cpu_total : ℚ) - (s.precpu_total : ℚ)) /
          ((s.system_cpu : ℚ) - (s.presystem_cpu : ℚ)) * 100 := by
  intro s
  unfold cpu_percent_of
  by_cases h : s.system_cpu - s.presystem_cpu ≤ 0
  · rw [if_neg (by omega), if_pos h]
  · rw [if_pos (by omega), if_neg h]
    push_cast
    ring

/-- Claim C8: a stats sample with `online = false` carries all-zero numeric
fields, and any resolution/fetch failure yields exactly the all-zero
offline sample instead of an error. -/
theorem stats_offline_all_zero :
    ∀ fetch : Except String RawStats,
      ((get_server_stats fetch).online = false →
        (get_server_stats fetch).cpu_percent = 0 ∧
        (get_server_stats fetch).memory_mb = 0 ∧
        (get_server_stats fetch).memory_limit_mb = 0 ∧
        (get_server_stats fetch).memory_percent = 0) ∧
      (∀ e : String, get_server_stats (Except.error e) = offline_stats) := by
  intro fetch
  constructor
  · intro h
    match fetch with
    | Except.error e => exact ⟨rfl, rfl, rfl, rfl⟩
    | Except.ok s =>
      unfold get_server_stats at h ⊢
      cases hc : compute_stats s with
      | error e => simp [hc, offline_stats]
      | ok sample =>
        exfalso
        simp only [hc] at h
        unfold compute_stats at hc
        split at hc
        · exact Except.noConfusion hc
        · injection hc with hs
          rw [← hs] at h
          simp at h
  · intro e
    rfl

/-- Witness for C8 at a concrete failed fetch. -/
theorem stats_offline_all_zero_witness :
    (get_server_stats (Except.error "NotFound")).cpu_percent = 0 ∧
    (get_server_stats (Except.error "NotFound")).memory_mb = 0 ∧
    (get_server_stats (Except.error "NotFound")).memory_limit_mb = 0 ∧
    (get_server_stats (Except.error "NotFound")).memory_percent = 0 :=
  (stats_offline_all_zero (Except.error "NotFound")).1 rfl

/-- Claim C10: attaching to a server whose container is not running sends
the client `Server is not running`, creates no background reader task, and
leaves no session for that server. -/
theorem attach_not_running_no_task :
    ∀ (sid : Nat) (e : String),
      (connect sid true true true (Except.error e)).2.accepted = true ∧
      (connect sid true true true (Except.error e)).2.sent =
        [OutMsg.info "Server is not running"] ∧
      (connect sid true true true (Except.error e)).1.log_task = none ∧
      reader_tasks [connect sid true true true (Except.error e)] = 0 := by
  intro sid e
  exact ⟨rfl, rfl, rfl, rfl⟩

/-- Claim C1 fails on the code: two clients attaching to the same running
server each get their own background reader task — two tasks, not one. -/
theorem two_attaches_create_two_reader_tasks :
    reader_tasks (attach_many 2 7 true true true (Except.ok 1)) = 2 ∧
    reader_tasks (attach_many 2 7 true true true (Except.ok 1)) ≠ 1 := by
  constructor <;> decide

/-- Claim C1 as amended: every console connection creates its own reader
task, so N attaches to the same running server yield N reader tasks. -/
theorem each_attach_creates_own_reader_task :
    ∀ (n sid h : Nat),
      reader_tasks (attach_many n sid true true true (Except.ok h)) = n := by
  intro n sid h
  induction n with
  | zero => rfl
  | succ k ih =>
    simp only [attach_many, List.replicate] at ih ⊢
    unfold reader_tasks at ih ⊢
    rw [List.filter_cons_of_pos (by rfl), List.length_cons, ih]

/-- Claim C4 fails on the code: with one persisted `ServerLog` row for
server 3, the history replay delivers nothing — `get_recent_logs` reads the
nonexistent attribute `message`, raising inside the database call, and
`send_log_history` swallows the exception. -/
theorem history_replay_lost_for_persisted_row :
    send_log_history [{ server_id := 3, timestamp := 5, log_entry := "hello" }] 3 = [] ∧
    get_recent_logs [{ server_id := 3, timestamp := 5, log_entry := "hello" }] 3 100 =
      Except.error "AttributeError: message" := by
  exact ⟨rfl, rfl⟩

/-- Claim C5 fails on the code: when the container handle does not resolve,
a submitted command is not echoed as a COMMAND event to anyone — the
submitter alone receives an error message. -/
theorem command_not_echoed_without_container :
    (execute_command (initialState 3)
        { resolve := Except.error "NotFound", exec_run := fun _ _ => Except.ok () }
        [] 0 "stop").group = [] ∧
    (execute_command (initialState 3)
        { resolve := Except.error "NotFound", exec_run := fun _ _ => Except.ok () }
        [] 0 "stop").sent = [OutMsg.error "Server container not found"] := by
  exact ⟨rfl, rfl⟩

/-- Claim C5 as amended: when the container handle is resolved and command
execution succeeds, every submitted command is broadcast to all attached
observers as a COMMAND event with text `> command`, and a sequence of
submissions is echoed in submission order. -/
theorem commands_echoed_to_all_in_order :
    ∀ (st : ConsoleState) (env : ExecEnv) (store : List ServerLogRow)
      (now : Nat) (cmds : List String) (c0 : Nat),
      st.container = some c0 →
      (∀ c cmd, env.exec_run c cmd = Except.ok ()) →
      (submit_commands st env store now cmds).2.2 =
        cmds.map (fun cmd =>
          { message := "> " ++ cmd, log_level := "COMMAND", timestamp := now }) ∧
      group_deliver ((submit_commands st env store now cmds).2.2) =
        cmds.map (fun cmd =>
          OutMsg.log ("> " ++ cmd) "COMMAND" (toString now)) := by
  intro st env store now cmds c0 hcache hexec
  have main : ∀ (cmds : List String) (st : ConsoleState)
      (store : List ServerLogRow), st.container = some c0 →
      (submit_commands st env store now cmds).2.2 =
        cmds.map (fun cmd =>
          { message := "> " ++ cmd, log_level := "COMMAND", timestamp := now }) := by
    intro cmds
    induction cmds with
    | nil => intro st store hst; rfl
    | cons c cs ih =>
      intro st store hst
      have hgc : get_container st env.resolve = (some c0, st) := by
        unfold get_container
        rw [hst]
      unfold submit_commands execute_command
      rw [hgc]
      simp only [hexec c0 c, List.map_cons]
      rw [ih st _ hst]
      rfl
  refine ⟨main cmds st store hcache, ?_⟩
  rw [main cmds st store hcache]
  unfold group_deliver console_message
  rw [List.map_map]
  rfl

/-- Witness for amended C5: one `stop` command through a session with a
cached container handle is echoed to the group as `> stop`. -/
theorem commands_echoed_witness :
    (submit_commands { server_id := 7, container := some 1, log_task := none }
        { resolve := Except.ok 1, exec_run := fun _ _ => Except.ok () }
        [] 5 ["stop"]).2.2 =
      [{ message := "> stop", log_level := "COMMAND", timestamp := 5 }] ∧
    group_deliver ((submit_commands
        { server_id := 7, container := some 1, log_task := none }
        { resolve := Except.ok 1, exec_run := fun _ _ => Except.ok () }
        [] 5 ["stop"]).2.2) =
      [OutMsg.log "> stop" "COMMAND" (toString 5)] :=
  commands_echoed_to_all_in_order
    { server_id := 7, container := some 1, log_task := none }
    { resolve := Except.ok 1, exec_run := fun _ _ => Except.ok () }
    [] 5 ["stop"] 1 rfl (fun _ _ => rfl)

/-- Claim C6 fails on the code: after a runtime-level failure using the
cached handle (handle 1), the cache is not invalidated — the next
`get_container` returns handle 1 again instead of re-resolving to the
fresh handle 2 the runtime would now provide. -/
theorem cached_handle_survives_runtime_failure :
    (execute_command { server_id := 3, container := some 1, log_task := none }
        { resolve := Except.ok 2, exec_run := fun _ _ => Except.error "APIError" }
        [] 0 "stop").sent =
      [OutMsg.error "Failed to execute command: APIError"] ∧
    (execute_command { server_id := 3, container := some 1, log_task := none }
        { resolve := Except.ok 2, exec_run := fun _ _ => Except.error "APIError" }
        [] 0 "stop").state.container = some 1 ∧
    (get_container
        (execute_command { server_id := 3, container := some 1, log_task := none }
          { resolve := Except.ok 2, exec_run := fun _ _ => Except.error "APIError" }
          [] 0 "stop").state (Except.ok 2)).1 = some 1 ∧
    (get_container
        (execute_command { server_id := 3, container := some 1, log_task := none }
          { resolve := Except.ok 2, exec_run := fun _ _ => Except.error "APIError" }
          [] 0 "stop").state (Except.ok 2)).1 ≠ some 2 := by
  refine ⟨rfl, rfl, rfl, by decide⟩

/-- Claim C6 as amended: the provider memoizes a successful resolution for
the lifetime of the connection — while a handle is cached `get_container`
returns it without consulting the runtime — and a runtime-level failure
using the handle never invalidates the cache. -/
theorem cached_handle_memoized_never_invalidated :
    ∀ (st : ConsoleState) (env : ExecEnv) (store : List ServerLogRow)
      (now : Nat) (cmd : String) (c : Nat),
      st.container = some c →
      (∀ r : Except String Nat, get_container st r = (some c, st)) ∧
      (execute_command st env store now cmd).state.container = some c := by
  intro st env store now cmd c hst
  have hgc : ∀ r : Except String Nat, get_container st r = (some c, st) := by
    intro r
    unfold get_container
    rw [hst]
  refine ⟨hgc, ?_⟩
  unfold execute_command
  rw [hgc env.resolve]
  cases hex : env.exec_run c cmd <;> simp [hex, hst]

/-- Witness for amended C6 at a concrete cached state. -/
theorem cached_handle_memoized_witness :
    get_container { server_id := 3, container := some 5, log_task := none }
        (Except.error "daemon down") =
      (some 5, { server_id := 3, container := some 5, log_task := none }) ∧
    (execute_command { server_id := 3, container := some 5, log_task := none }
        { resolve := Except.ok 9, exec_run := fun _ _ => Except.ok () }
        [] 0 "list").state.container = some 5 :=
  have h := cached_handle_memoized_never_invalidated
    { server_id := 3, container := some 5, log_task := none }
    { resolve := Except.ok 9, exec_run := fun _ _ => Except.ok () }
    [] 0 "list" 5 rfl
  ⟨h.1 (Except.error "daemon down"), h.2⟩

/-- Claim C7 fails on the code: a stats connection is accepted without the
authorization predicate ever being consulted. -/
theorem stats_connect_skips_access_check :
    (stats_connect true).accepted = true ∧
    (stats_connect true).db_calls.count DbCall.check_access ≠ 1 := by
  constructor <;> decide

/-- Claim C7 as amended: console attaches consult `check_access` exactly
once before the connection is accepted and message handling never re-checks
it; stats attaches never consult it at all. -/
theorem access_checked_once_console_never_stats :
    ∀ (sid : Nat) (auth se ha : Bool) (resolve : Except String Nat)
      (st : ConsoleState) (env : ExecEnv) (store : List ServerLogRow)
      (now : Nat) (msg : ClientMsg) (a : Bool),
      ((connect sid auth se ha resolve).2.accepted = true →
        (connect sid auth se ha resolve).2.db_calls.count DbCall.check_access = 1) ∧
      (receive st env store now msg).db_calls.count DbCall.check_access = 0 ∧
      (stats_connect a).db_calls.count DbCall.check_access = 0 := by
  intro sid auth se ha resolve st env store now msg a
  refine ⟨?_, ?_, ?_⟩
  · intro hacc
    cases auth <;> cases se <;> cases ha <;>
      simp_all [connect, start_log_stream, List.count]
  · cases msg with
    | command c =>
      show (execute_command st env store now c).db_calls.count DbCall.check_access = 0
      unfold execute_command
      cases hgc : get_container st env.resolve with
      | mk copt st1 =>
        cases copt with
        | none => rfl
        | some c0 => cases hex : env.exec_run c0 c <;> simp [hex, List.count]
    | get_history => rfl
    | invalid e => rfl
    | other => rfl
  · cases a <;> rfl

/-- Witness for amended C7 at a concrete accepted console connection and a
concrete history request. -/
theorem access_checked_once_witness :
    (connect 3 true true true (Except.ok 1)).2.db_calls.count DbCall.check_access = 1 ∧
    (receive (initialState 3)
        { resolve := Except.ok 1, exec_run := fun _ _ => Except.ok () }
        [] 0 ClientMsg.get_history).db_calls.count DbCall.check_access = 0 :=
  have h := access_checked_once_console_never_stats 3 true true true
    (Except.ok 1) (initialState 3)
    { resolve := Except.ok 1, exec_run := fun _ _ => Except.ok () }
    [] 0 ClientMsg.get_history true
  ⟨h.1 (by decide), h.2.1⟩

end UADIA
